import Mathlib

/- Verification development for the smart-financial-coach backend
   (src/backend/server.py). Python floats are modelled as rationals,
   Python dicts from the store as records of optional fields, and the
   generative-text collaborator as an explicit input that either throws
   or returns text. Line references point into src/backend/server.py. -/

set_option maxRecDepth 4000

/- ---------- character / string utilities (models of Python str ops) ---------- -/

/-- ASCII lowercase of one character (model of Python str.lower per char). -/
def lowerChar (c : Char) : Char :=
  if 'A' ≤ c && c ≤ 'Z' then Char.ofNat (c.toNat + 32) else c

/-- Model of Python str.lower (ASCII range, which covers every literal in the source). -/
def pyLower (s : String) : String := String.mk (s.toList.map lowerChar)

/-- Does the first list occur as a leading segment of the second. -/
def leadsList : List Char → List Char → Bool
  | [], _ => true
  | _ :: _, [] => false
  | a :: as, b :: bs => a == b && leadsList as bs

/-- Does the needle occur as a contiguous segment of the haystack. -/
def containsSubList (needle : List Char) : List Char → Bool
  | [] => needle.isEmpty
  | c :: rest => leadsList needle (c :: rest) || containsSubList needle rest

/-- Model of the Python expression pat in s (substring containment). -/
def containsTok (s pat : String) : Bool := containsSubList pat.toList s.toList

/-- Split a character list on a separator character (model of str.split for the
one-character separators used by the source: dash, colon, plus, T). -/
def splitListOn (sep : Char) : List Char → List (List Char)
  | [] => [[]]
  | c :: rest =>
    let r := splitListOn sep rest
    if c == sep then [] :: r
    else match r with
      | h :: t => (c :: h) :: t
      | [] => [[c]]

/-- Numeric value of an all-digit character list, none otherwise. -/
def digitsVal (l : List Char) : Option ℕ :=
  if !l.isEmpty && l.all Char.isDigit then
    some (l.foldl (fun n c => 10 * n + (c.toNat - 48)) 0)
  else none

/-- Model of the Python replacement of Z by a zero UTC offset performed before
datetime.fromisoformat in server.py lines 128 and 666. -/
def zReplace (s : String) : String :=
  String.mk (s.toList.foldr (fun c acc => (if c == 'Z' then "+00:00".toList else [c]) ++ acc) [])

/- ---------- datetime model ---------- -/

/-- Model of a Python datetime value: calendar fields plus whether the value
carries a UTC offset (aware). -/
structure PyDateTime where
  year : ℕ
  month : ℕ
  day : ℕ
  hour : ℕ
  minute : ℕ
  second : ℕ
  aware : Bool
  deriving DecidableEq

/-- Parse a YYYY-MM-DD character list. -/
def parseDatePart (l : List Char) : Option (ℕ × ℕ × ℕ) :=
  match splitListOn '-' l with
  | [y, m, d] =>
    match digitsVal y, digitsVal m, digitsVal d with
    | some yn, some mn, some dn =>
      if y.length == 4 && m.length == 2 && d.length == 2 &&
         decide (1 ≤ mn) && decide (mn ≤ 12) && decide (1 ≤ dn) && decide (dn ≤ 31)
      then some (yn, mn, dn) else none
    | _, _, _ => none
  | _ => none

/-- Parse an HH:MM:SS or HH:MM character list. -/
def parseTimeCore (l : List Char) : Option (ℕ × ℕ × ℕ) :=
  match splitListOn ':' l with
  | [h, m, s] =>
    match digitsVal h, digitsVal m, digitsVal s with
    | some hn, some mn, some sn =>
      if h.length == 2 && m.length == 2 && s.length == 2 &&
         decide (hn ≤ 23) && decide (mn ≤ 59) && decide (sn ≤ 59)
      then some (hn, mn, sn) else none
    | _, _, _ => none
  | [h, m] =>
    match digitsVal h, digitsVal m with
    | some hn, some mn =>
      if h.length == 2 && m.length == 2 && decide (hn ≤ 23) && decide (mn ≤ 59)
      then some (hn, mn, 0) else none
    | _, _ => none
  | _ => none

/-- Is the character list a valid HH:MM UTC-offset body. -/
def validOffset (l : List Char) : Bool :=
  match splitListOn ':' l with
  | [h, m] =>
    (digitsVal h).isSome && (digitsVal m).isSome && h.length == 2 && m.length == 2
  | _ => false

/-- Parse a time-of-day with an optional +HH:MM offset suffix. -/
def parseTimePart (l : List Char) : Option (ℕ × ℕ × ℕ × Bool) :=
  match splitListOn '+' l with
  | [core] => (parseTimeCore core).map (fun p => (p.1, p.2.1, p.2.2, false))
  | [core, off] =>
    if validOffset off then (parseTimeCore core).map (fun p => (p.1, p.2.1, p.2.2, true))
    else none
  | _ => none

/-- Model of Python datetime.fromisoformat as used by the source: a date-only
string yields a midnight datetime, a string with the T separator yields a full
datetime, anything else fails. -/
def parseISO (s : String) : Option PyDateTime :=
  let l := s.toList
  if l.contains 'T' then
    match splitListOn 'T' l with
    | [d, t] =>
      match parseDatePart d, parseTimePart t with
      | some (y, m, dd), some (h, mi, se, aw) => some ⟨y, m, dd, h, mi, se, aw⟩
      | _, _ => none
    | _ => none
  else
    (parseDatePart l).map (fun p => ⟨p.1, p.2.1, p.2.2, 0, 0, 0, false⟩)

/- ---------- loosely-typed store values and the record normalizer ---------- -/

/-- Model of a value stored under a key of a Supabase row dict: a string, an
already-parsed datetime, a Python date object, the None value, or a number. -/
inductive PVal
  | vStr (s : String)
  | vDT (t : PyDateTime)
  | vDate (y m d : ℕ)
  | vNone
  | vNum (q : ℚ)
  deriving DecidableEq

/-- Python truthiness of a stored value: empty strings, None and zero are falsy. -/
def truthy : PVal → Bool
  | .vStr s => !(s == "")
  | .vDT _ => true
  | .vDate _ _ _ => true
  | .vNone => false
  | .vNum q => !(q == 0)

/-- A store row as seen by parse_from_supabase: the three timestamp-bearing keys
(absent key = none) plus the remaining key-value pairs, which the function never
touches. -/
structure RawRecord where
  date : Option PVal
  processed_at : Option PVal
  created_at : Option PVal
  rest : List (String × PVal)
  deriving DecidableEq

/-- The empty dict, for the early return in server.py line 650. -/
def emptyRecord : RawRecord := ⟨none, none, none, []⟩

/-- Truthiness of a possibly-absent dict entry. -/
def fieldTruthy : Option PVal → Bool
  | some v => truthy v
  | none => false

/-- One iteration of the parsing loop of server.py lines 662-674 on a single key:
truthy strings go through fromisoformat (after the Z replacement) and fall back
to the current time on failure, datetimes are kept, other truthy values become
the current time, and falsy or absent entries are left untouched. -/
def parseKey (now : PyDateTime) : Option PVal → Option PVal
  | none => none
  | some v =>
    if truthy v then
      match v with
      | .vStr s =>
        match parseISO (zReplace s) with
        | some t => some (.vDT t)
        | none => some (.vDT now)
      | .vDT t => some (.vDT t)
      | _ => some (.vDT now)
    else some v

/-- The field-name mapping of server.py lines 657-660: copy processed_at, else
created_at, into date when date is absent. -/
def mapDateField (r : RawRecord) : RawRecord :=
  if r.processed_at.isSome && r.date.isNone then { r with date := r.processed_at }
  else if r.created_at.isSome && r.date.isNone then { r with date := r.created_at }
  else r

/-- Model of parse_from_supabase (server.py lines 648-680). -/
def parseFromSupabase (now : PyDateTime) (r : RawRecord) : RawRecord :=
  if r = emptyRecord then emptyRecord
  else
    let p := mapDateField r
    let p : RawRecord :=
      { p with date := parseKey now p.date,
               created_at := parseKey now p.created_at,
               processed_at := parseKey now p.processed_at }
    if fieldTruthy p.date then p else { p with date := some (.vDT now) }

/-- Specification-side choice of the raw timestamp source: the date field if
present, else processed_at, else created_at. -/
def chooseRaw (r : RawRecord) : Option PVal :=
  if r.date.isSome then r.date
  else if r.processed_at.isSome then r.processed_at
  else r.created_at

/-- Specification-side final timestamp: the chosen raw value parsed as a full
ISO date-time when it is a truthy string, kept when already a datetime, and the
current time in every remaining case (absent, falsy, unparseable, wrong type). -/
def parseChosen (now : PyDateTime) : Option PVal → PyDateTime
  | none => now
  | some v =>
    if truthy v then
      match v with
      | .vStr s => (parseISO (zReplace s)).getD now
      | .vDT t => t
      | _ => now
    else now

/-- Specification-side canonical timestamp of a record. -/
def finalDate (now : PyDateTime) (r : RawRecord) : PyDateTime :=
  parseChosen now (chooseRaw r)

/-- Is a dict entry a Python calendar-date object (as opposed to a datetime). -/
def isCalendarDateVal : Option PVal → Bool
  | some (.vDate _ _ _) => true
  | _ => false

/- ---------- raw transactions and the category aggregator ---------- -/

/-- A raw store transaction row as read by generate_insights_from_raw_data:
optional fields model absent dict keys (server.py lines 573-584). -/
structure RawTx where
  amount : ℚ
  transaction_type : Option String
  ai_category : Option String
  category : Option String
  merchant : Option String
  deriving DecidableEq

/-- Model of the Python or-chain on strings: a truthy (non-empty) left operand
wins, otherwise the right operand is used. -/
def pyOrStr (a : Option String) (b : String) : String :=
  match a with
  | some s => if s == "" then b else s
  | none => b

/-- Effective transaction type with the dict-get default (server.py line 576). -/
def txType (t : RawTx) : String := t.transaction_type.getD "debit"

/-- Expense-bearing transaction types (server.py line 579). -/
def isExpenseTypeStr (s : String) : Bool := s == "debit" || s == "payment" || s == "withdrawal"

/-- Income-bearing transaction types (server.py line 915). -/
def isIncomeTypeStr (s : String) : Bool := s == "credit" || s == "deposit"

/-- Category fallback chain of server.py lines 581-584: ai_category, else
category, else lower-cased merchant with dict default other, else other. -/
def effectiveCategory (t : RawTx) : String :=
  pyOrStr t.ai_category
    (pyOrStr t.category
      (let m := pyLower (t.merchant.getD "other")
       if m == "" then "other" else m))

/-- Semantic category normalization of server.py lines 586-596. -/
def normalizeCategory (c : String) : String :=
  let lc := pyLower c
  if containsTok lc "starbucks" || containsTok lc "coffee" then "coffee"
  else if containsTok lc "food" || containsTok lc "restaurant" || containsTok lc "dining" then "food"
  else if containsTok lc "entertainment" || containsTok lc "netflix" || containsTok lc "streaming" then "entertainment"
  else if containsTok lc "transportation" || containsTok lc "uber" || containsTok lc "gas" then "transportation"
  else if containsTok lc "shopping" || containsTok lc "amazon" || containsTok lc "target" then "shopping"
  else c

/-- Append an amount to the bucket of a category in an insertion-ordered
association list (model of the Python dict updates in server.py lines 598-600). -/
def addToCat (m : List (String × List ℚ)) (c : String) (a : ℚ) : List (String × List ℚ) :=
  match m with
  | [] => [(c, [a])]
  | (k, v) :: restm => if k = c then (k, v ++ [a]) :: restm else (k, v) :: addToCat restm c a

/-- One loop iteration of server.py lines 573-601: expense-bearing rows with a
positive amount are bucketed under their normalized effective category. -/
def insightStep (m : List (String × List ℚ)) (t : RawTx) : List (String × List ℚ) :=
  if isExpenseTypeStr (txType t) = true ∧ 0 < t.amount then
    addToCat m (normalizeCategory (effectiveCategory t)) t.amount
  else m

/-- The per-category amount buckets built by generate_insights_from_raw_data. -/
def categorySpending (txs : List RawTx) : List (String × List ℚ) :=
  txs.foldl insightStep []

/-- Sum of all per-category totals. -/
def sumCat (m : List (String × List ℚ)) : ℚ := (m.map (fun p => p.2.sum)).sum

/-- Total amount over all expense-bearing transactions (the quantity the
total_spending accumulator of server.py line 601 tracks). -/
def expenseTotal (txs : List RawTx) : ℚ :=
  (txs.map (fun t => if isExpenseTypeStr (txType t) = true then t.amount else 0)).sum

/- ---------- trend classifier ---------- -/

/-- Trend classification of server.py lines 626-632 (also lines 304-311): with
at least three observations, compare the mean of the last three against the
overall mean scaled by 1.2 and 0.8 (float literals modelled as rationals). -/
def trendOf (amounts : List ℚ) : String :=
  let avg := amounts.sum / (amounts.length : ℚ)
  if 3 ≤ amounts.length then
    let recentAvg := ((amounts.drop (amounts.length - 3)).sum) / 3
    if recentAvg > avg * (12 / 10) then "increasing"
    else if recentAvg < avg * (8 / 10) then "decreasing"
    else "stable"
  else "stable"

/- ---------- insight text and the insights endpoint ---------- -/

/-- Model of the Python format spec .0f: render the rounded value (rounding at
exact halves is immaterial to every claim). -/
def fmt0 (q : ℚ) : String := toString (round q)

/-- A spending insight as returned by the API (the constant period and
created_at fields of the pydantic model carry no claim content and are
omitted). -/
structure SpendingInsight where
  user_id : String
  category : String
  total_amount : ℚ
  transaction_count : ℕ
  avg_transaction : ℚ
  trend : String
  ai_recommendation : String
  deriving DecidableEq

/-- Per-category recommendation templates of server.py lines 608-623. -/
def recommendationFor (category : String) (total : ℚ) (n : ℕ) : String :=
  let annual := total * 12
  if category = "coffee" then
    "You\x27ve spent $" ++ fmt0 total ++ " on coffee this month across " ++ toString n ++
    " visits. That\x27s $" ++ fmt0 annual ++ " annually! Brewing at home could save you $" ++
    fmt0 (annual * (7 / 10)) ++ " per year."
  else if category = "food" then
    "Your food spending is $" ++ fmt0 total ++ " this month ($" ++ fmt0 annual ++
    " annually). Cooking at home 2 more times per week could save you $" ++
    fmt0 (annual * (3 / 10)) ++ " per year."
  else if category = "entertainment" then
    "Entertainment costs: $" ++ fmt0 total ++ " this month ($" ++ fmt0 annual ++
    " annually). Consider setting a monthly budget of $" ++ fmt0 (total * (8 / 10)) ++
    " to save $" ++ fmt0 (annual * (2 / 10)) ++ " per year."
  else if category = "transportation" then
    "Transportation spending: $" ++ fmt0 total ++ " this month ($" ++ fmt0 annual ++
    " annually). Carpooling or using public transit could reduce this by 20-30%."
  else if category = "shopping" then
    "Shopping expenses: $" ++ fmt0 total ++ " this month ($" ++ fmt0 annual ++
    " annually). Consider implementing a 24-hour rule before non-essential purchases."
  else
    "Your " ++ category ++ " spending is $" ++ fmt0 total ++ " this month ($" ++
    fmt0 annual ++ " annually). Review this category to identify potential savings opportunities."

/-- Model of generate_insights_from_raw_data (server.py lines 564-645). -/
def generateInsightsFromRawData (uid : String) (txs : List RawTx) : List SpendingInsight :=
  if txs = [] then []
  else
    (categorySpending txs).map (fun p =>
      let total := p.2.sum
      { user_id := uid,
        category := p.1,
        total_amount := total,
        transaction_count := p.2.length,
        avg_transaction := total / (p.2.length : ℚ),
        trend := trendOf p.2,
        ai_recommendation := recommendationFor p.1 total p.2.length })

/-- The insights response shape of server.py lines 878-883. -/
structure InsightsResponse where
  insights : List SpendingInsight
  total_transactions : ℕ
  analysis_period : String
  anomalies_present : Bool
  deriving DecidableEq

/-- The no-transactions food placeholder of server.py lines 828-836. -/
def foodPlaceholder (uid : String) : SpendingInsight :=
  { user_id := uid, category := "food", total_amount := 0, transaction_count := 0,
    avg_transaction := 0, trend := "stable",
    ai_recommendation := "Start tracking your food expenses to get personalized insights! Most people can save $200-500 monthly by cooking at home more often." }

/-- The no-transactions entertainment placeholder of server.py lines 837-845. -/
def entertainmentPlaceholder (uid : String) : SpendingInsight :=
  { user_id := uid, category := "entertainment", total_amount := 0, transaction_count := 0,
    avg_transaction := 0, trend := "stable",
    ai_recommendation := "Track your entertainment spending to identify opportunities to save. Consider setting a monthly budget of $150-200 for movies, dining out, and subscriptions." }

/-- The no-insights fallback of server.py lines 866-876. -/
def generalPlaceholder (uid : String) (txCount : ℕ) : SpendingInsight :=
  { user_id := uid, category := "general", total_amount := 0, transaction_count := txCount,
    avg_transaction := 0, trend := "stable",
    ai_recommendation := "Great job tracking your expenses! Keep monitoring your spending patterns to identify areas for improvement." }

/-- Model of the insights endpoint get_spending_insights (server.py lines
816-903) as a function of the fetched transaction rows. -/
def getSpendingInsights (uid : String) (txs : List RawTx) : InsightsResponse :=
  if txs = [] then
    { insights := [foodPlaceholder uid, entertainmentPlaceholder uid],
      total_transactions := 0,
      analysis_period := "no_data_yet",
      anomalies_present := false }
  else
    let insights := generateInsightsFromRawData uid txs
    let insights := if insights = [] then [generalPlaceholder uid txs.length] else insights
    { insights := insights,
      total_transactions := txs.length,
      analysis_period := "last_30_days",
      anomalies_present := insights.any (fun i => i.trend == "increasing") }

/- ---------- goal forecaster ---------- -/

/-- The deterministic forecast fields; the infinite months sentinel of the
source is returned as none (server.py lines 265-270 and 1076). -/
structure GoalForecast where
  remaining : ℚ
  monthsNeeded : Option ℚ
  status : String
  deriving DecidableEq

/-- Deterministic part of FinancialAI.forecast_goal_progress (server.py lines
214-228), identical to the inline computation of _get_goal_forecast_internal
(server.py lines 1044-1061). -/
def forecastGoalProgress (monthlySavings targetAmount currentAmount : ℚ) : GoalForecast :=
  let remaining := max (targetAmount - currentAmount) 0
  if monthlySavings ≤ 0 then
    { remaining := remaining, monthsNeeded := none, status := "no_savings" }
  else
    let monthsNeeded := remaining / monthlySavings
    let status :=
      if monthsNeeded ≤ 6 then "on_track"
      else if monthsNeeded ≤ 12 then "moderate_track"
      else "off_track"
    { remaining := remaining, monthsNeeded := some monthsNeeded, status := status }

/- ---------- generative-text collaborator and fallbacks ---------- -/

/-- Outcome of one free-text collaborator call: the call throws, or returns a
text (the source strips it; the model carries the stripped text). -/
inductive LLMText
  | threw
  | returned (text : String)
  deriving DecidableEq

/-- Structured analysis of one transaction. -/
structure AIAnalysis where
  category : String
  insight : String
  tip : String
  deriving DecidableEq

/-- Outcome of the structured analysis call: the call throws, or returns text
whose JSON parse and field validation (server.py lines 182-194) either fails
(none) or yields the three fields. -/
inductive GenResult
  | threw
  | returned (parsed : Option AIAnalysis)
  deriving DecidableEq

/-- Keyword category guess of FinancialAI, server.py lines 371-386. -/
def guessCategory (description : String) : String :=
  let d := pyLower description
  if [ "grocery", "market", "food", "restaurant", "cafe", "coffee" ].any (fun w => containsTok d w) then "food"
  else if [ "gas", "fuel", "uber", "lyft", "taxi", "transport" ].any (fun w => containsTok d w) then "transportation"
  else if [ "movie", "entertainment", "netflix", "spotify", "game" ].any (fun w => containsTok d w) then "entertainment"
  else if [ "electric", "water", "internet", "phone", "utility" ].any (fun w => containsTok d w) then "utilities"
  else if [ "amazon", "store", "mall", "shop" ].any (fun w => containsTok d w) then "shopping"
  else "other"

/-- Model of FinancialAI.analyze_transaction (server.py lines 149-212): any
collaborator throw or unusable reply falls back to a deterministic analysis. -/
def analyzeTransaction (llm : GenResult) (description : String) : AIAnalysis :=
  match llm with
  | .returned (some a) => a
  | .returned none =>
    { category := guessCategory description, insight := "Transaction recorded successfully", tip := "" }
  | .threw =>
    { category := guessCategory description, insight := "Transaction recorded successfully", tip := "" }

/-- Status-keyed fallback guidance inside forecast_goal_progress (server.py
lines 253-263). -/
def forecastFallbackGuidance (status : String) (monthlySavings targetAmount remaining : ℚ) : String :=
  if status = "on_track" then
    "Great progress! You\x27re on track to reach your goal. Consider increasing your monthly savings by $" ++
    fmt0 (monthlySavings * (1 / 10)) ++ " to reach your goal even faster."
  else if status = "off_track" then
    "To get back on track, try to increase your monthly savings by $" ++
    fmt0 (remaining / 12 - monthlySavings) ++ ". Consider cutting back on dining out or entertainment expenses."
  else if status = "no_savings" then
    "Start by tracking your expenses for a week. Look for opportunities to save $" ++
    fmt0 (targetAmount / 12) ++ " per month to reach your goal in a year."
  else
    "Track your spending for a month to estimate savings, then identify 2 categories where you can cut back to free up cash toward your goal."

/-- Full forecast including narrative guidance. -/
structure GoalForecastFull where
  remaining : ℚ
  monthsNeeded : Option ℚ
  status : String
  ai_guidance : String
  deriving DecidableEq

/-- Model of FinancialAI.forecast_goal_progress including the guidance call and
its fallback (server.py lines 214-270): an empty reply becomes the fixed
unable-to-generate text and a throw becomes the status-keyed fallback. -/
def forecastGoalProgressFull (gen : LLMText) (monthlySavings targetAmount currentAmount : ℚ) :
    GoalForecastFull :=
  let f := forecastGoalProgress monthlySavings targetAmount currentAmount
  let guidance :=
    match gen with
    | .returned s => if s = "" then "Unable to generate personalized guidance at this time." else s
    | .threw => forecastFallbackGuidance f.status monthlySavings targetAmount f.remaining
  { remaining := f.remaining, monthsNeeded := f.monthsNeeded, status := f.status,
    ai_guidance := guidance }

/-- HuggingFaceFinancialAI fallback guidance (server.py lines 482-495), reached
on every generate_goal_guidance call because the text generator is disabled. -/
def fallbackGuidance (monthlySavings targetAmount currentAmount : ℚ) (status : String) : String :=
  let remaining := max (targetAmount - currentAmount) 0
  if status = "on_track" then
    "Great progress! You\x27re saving $" ++ fmt0 monthlySavings ++ "/month toward your $" ++
    fmt0 targetAmount ++ " goal. Keep up the momentum!"
  else if status = "off_track" then
    "To reach your $" ++ fmt0 targetAmount ++ " goal in a year, try to save $" ++
    fmt0 (remaining / 12) ++ "/month. Consider cutting dining out or entertainment expenses."
  else if status = "no_savings" then
    "Start your savings journey! Aim for $" ++ fmt0 (targetAmount / 12) ++
    "/month to reach your $" ++ fmt0 targetAmount ++ " goal in a year."
  else
    "Track your spending to understand your savings potential, then identify areas to cut back toward your $" ++
    fmt0 targetAmount ++ " goal."

/-- HuggingFaceFinancialAI fallback spending insight (server.py lines 497-506);
the count and trend parameters are accepted and unused, as in the source. -/
def fallbackSpendingInsight (category : String) (total : ℚ) (n : ℕ) (trend : String) : String :=
  let c := pyLower category
  if c = "food" || c = "dining" || c = "restaurants" then
    "You\x27ve spent $" ++ fmt0 total ++ " on " ++ category ++
    " this month. Cooking at home 2 more times per week could save you $" ++
    fmt0 (total * (3 / 10)) ++ " monthly."
  else if c = "entertainment" || c = "movies" || c = "streaming" then
    "Your " ++ category ++ " spending is $" ++ fmt0 total ++
    " this month. Consider setting a monthly budget of $" ++ fmt0 (total * (7 / 10)) ++
    " to save $" ++ fmt0 (total * (3 / 10) * 12) ++ " annually."
  else if c = "transportation" || c = "gas" || c = "uber" then
    "Transportation costs of $" ++ fmt0 total ++
    " this month. Carpooling or using public transit could reduce this by 20-30%."
  else
    "Review your " ++ category ++ " spending of $" ++ fmt0 total ++
    " to identify potential savings opportunities."

/- ---------- goal creation ---------- -/

/-- The JSON body of a goal-creation request; optional fields model absent keys
(server.py lines 1217-1237). -/
structure GoalBody where
  title : Option String
  target_amount : Option ℚ
  goal_type : Option String
  current_amount : Option ℚ
  target_date : Option String
  deriving DecidableEq

/-- A financial_goals row as built by create_goal (server.py lines 1227-1237). -/
structure GoalRow where
  id : String
  user_id : String
  goal_name : String
  goal_type : String
  target_amount : ℚ
  current_amount : ℚ
  target_date : Option String
  is_active : Bool
  created_at : String
  deriving DecidableEq

/-- An HTTP outcome of the create-goal endpoint. -/
inductive GoalResp
  | ok (goal : GoalRow)
  | err (status : ℕ) (detail : String)
  deriving DecidableEq

/-- Model of the string form of a starlette HTTPException, which is
status colon space detail. -/
def httpExcStr (status : ℕ) (detail : String) : String :=
  toString status ++ ": " ++ detail

/-- Model of the create_goal endpoint (server.py lines 1213-1255) as a function
of the request body, the generated id, the current time and whether the store
insert reports data back; the second component lists the rows handed to the
store. The HTTPException(400) raised for a missing field is caught by the
enclosing except-Exception and re-raised as a 500 whose detail embeds the
original exception text. -/
def createGoal (userId : String) (body : GoalBody) (uuid nowIso : String) (insertOk : Bool) :
    GoalResp × List GoalRow :=
  if body.title.isNone then
    (.err 500 ("Error creating goal: " ++ httpExcStr 400 "Missing required field: title"), [])
  else if body.target_amount.isNone then
    (.err 500 ("Error creating goal: " ++ httpExcStr 400 "Missing required field: target_amount"), [])
  else
    let goal : GoalRow :=
      { id := uuid, user_id := userId,
        goal_name := body.title.getD "",
        goal_type := body.goal_type.getD "custom",
        target_amount := body.target_amount.getD 0,
        current_amount := body.current_amount.getD 0,
        target_date := body.target_date,
        is_active := true,
        created_at := nowIso }
    if insertOk then (.ok goal, [goal])
    else (.err 500 ("Error creating goal: " ++ httpExcStr 500 "Failed to create goal"), [goal])

/- ---------- transaction write paths ---------- -/

/-- The pydantic Transaction model (server.py lines 64-76); ai_insights is
carried as the structured analysis. -/
structure Transaction where
  id : String
  user_id : String
  amount : ℚ
  description : String
  category : Option String
  ai_category : Option String
  date : PyDateTime
  merchant : Option String
  account_type : String
  transaction_type : String
  ai_insights : Option AIAnalysis
  created_at : PyDateTime
  deriving DecidableEq

/-- A transactions-table row as built by the write paths (server.py lines
745-757 and 796-808). -/
structure StoredTxRow where
  id : String
  user_id : String
  amount : ℚ
  description : String
  category : Option String
  ai_category : Option String
  ai_insights : Option AIAnalysis
  merchant : Option String
  transaction_type : String
  processed_at : PyDateTime
  created_at : PyDateTime
  deriving DecidableEq

/-- The dict handed to the store by both write paths: transaction_type is the
literal payment regardless of the type carried by the object (server.py lines 754 and
805). -/
def toStoredRow (t : Transaction) : StoredTxRow :=
  { id := t.id, user_id := t.user_id, amount := t.amount, description := t.description,
    category := t.category, ai_category := t.ai_category, ai_insights := t.ai_insights,
    merchant := t.merchant, transaction_type := "payment",
    processed_at := t.date, created_at := t.created_at }

/-- The JSON body of an add-transaction request (server.py lines 779-787). -/
structure TxRequest where
  amount : ℚ
  description : String
  merchant : Option String
  account_type : Option String
  transaction_type : Option String
  deriving DecidableEq

/-- The Transaction object built by add_transaction before analysis (server.py
lines 779-787). -/
def buildTransaction (userId : String) (d : TxRequest) (idv : String) (now : PyDateTime) :
    Transaction :=
  { id := idv, user_id := userId, amount := d.amount, description := d.description,
    category := none, ai_category := none, date := now, merchant := d.merchant,
    account_type := d.account_type.getD "checking",
    transaction_type := d.transaction_type.getD "debit",
    ai_insights := none, created_at := now }

/-- Model of the add_transaction endpoint (server.py lines 775-811): the
returned Transaction and the row handed to the store. -/
def addTransactionResult (userId : String) (d : TxRequest) (llm : GenResult)
    (idv : String) (now : PyDateTime) : Transaction × StoredTxRow :=
  let t := buildTransaction userId d idv now
  let a := analyzeTransaction llm t.description
  let t := { t with ai_category := some a.category, ai_insights := some a }
  (t, toStoredRow t)

/-- The rows handed to the store by the create_user seeding loop (server.py
lines 734-758), given the synthetic sample transactions. -/
def createUserStoredRows (sample : List Transaction) (llm : GenResult) : List StoredTxRow :=
  sample.map (fun t =>
    let a := analyzeTransaction llm t.description
    toStoredRow { t with ai_category := some a.category, ai_insights := some a })

/- ---------- subscription detector (absent from src, modelled from the spec) ---------- -/

/-- Modelled from the spec: the subscription detector of spec section 4.4 has no
implementation under src (server.py exposes no subscriptions endpoint); a
merchant group is the list of (amount, timestamp-in-days) pairs sharing one
merchant key. -/
def groupAmounts (g : List (ℚ × ℤ)) : List ℚ := g.map Prod.fst

/-- Modelled from the spec: the timestamps of a merchant group. -/
def groupTimes (g : List (ℚ × ℤ)) : List ℤ := g.map Prod.snd

/-- Arithmetic mean of a rational list. -/
def meanQ (l : List ℚ) : ℚ := l.sum / (l.length : ℚ)

/-- Maximum of an amount list (amounts are non-empty in every use). -/
def maxAmt : List ℚ → ℚ
  | [] => 0
  | a :: restl => restl.foldl max a

/-- Minimum of an amount list. -/
def minAmt : List ℚ → ℚ
  | [] => 0
  | a :: restl => restl.foldl min a

/-- Modelled from the spec: amount stability, max minus min within ten percent
of the mean (spec section 4.4 step 5a). -/
def amountStableB (l : List ℚ) : Bool :=
  decide (maxAmt l - minAmt l ≤ (1 / 10) * meanQ l)

/-- Insertion into a sorted integer list. -/
def insertSorted (x : ℤ) : List ℤ → List ℤ
  | [] => [x]
  | y :: restl => if x ≤ y then x :: y :: restl else y :: insertSorted x restl

/-- Sort the timestamps ascending (spec section 4.4 step 3). -/
def sortInts (l : List ℤ) : List ℤ := l.foldr insertSorted []

/-- Inter-arrival gaps between consecutive sorted timestamps (spec section 4.4
step 4). -/
def intervals : List ℤ → List ℤ
  | a :: b :: restl => (b - a) :: intervals (b :: restl)
  | _ => []

/-- Modelled from the spec: mean interval in days, undefined with fewer than two
timestamps (spec section 4.4 step 4). -/
def avgIntervalDays (ts : List ℤ) : Option ℚ :=
  let iv := intervals (sortInts ts)
  if iv = [] then none
  else some ((iv.map (fun n => (n : ℚ))).sum / (iv.length : ℚ))

/-- Modelled from the spec: monthly-like cadence, mean interval within 20 to 40
days (spec section 4.4 step 5b). -/
def cadenceOk (ts : List ℤ) : Bool :=
  match avgIntervalDays ts with
  | some d => decide (20 ≤ d) && decide (d ≤ 40)
  | none => false

/-- Modelled from the spec: a group is flagged when it has at least two members
(step 2), stable amounts (5a) and monthly cadence (5b). -/
def isSubscription (g : List (ℚ × ℤ)) : Bool :=
  decide (2 ≤ g.length) && amountStableB (groupAmounts g) && cadenceOk (groupTimes g)

/-- Modelled from the spec: the estimated monthly charge of a flagged group is
the mean amount (spec section 4.4 step 6). -/
def estimatedMonthlyTotal (g : List (ℚ × ℤ)) : ℚ := meanQ (groupAmounts g)

/- ---------- dashboard aggregation ---------- -/

/-- Dashboard effective category (server.py line 921): ai_category, else
category, else the literal other. -/
def dashCategory (t : Transaction) : String :=
  pyOrStr t.ai_category (pyOrStr t.category "other")

/-- Add an amount to a category total in an insertion-ordered association list
(the dict-get-default-plus update of server.py line 922). -/
def addAmt (m : List (String × ℚ)) (c : String) (a : ℚ) : List (String × ℚ) :=
  match m with
  | [] => [(c, a)]
  | (k, v) :: restm => if k = c then (k, v + a) :: restm else (k, v) :: addAmt restm c a

/-- One iteration of the dashboard category loop (server.py lines 919-922). -/
def dashStep (m : List (String × ℚ)) (t : Transaction) : List (String × ℚ) :=
  if isExpenseTypeStr t.transaction_type = true then addAmt m (dashCategory t) t.amount
  else m

/-- The dashboard per-category totals (server.py lines 918-922). -/
def dashCategorySpending (txs : List Transaction) : List (String × ℚ) :=
  txs.foldl dashStep []

/-- Sum of dashboard per-category totals. -/
def sumCatQ (m : List (String × ℚ)) : ℚ := (m.map Prod.snd).sum

/-- The dashboard total_spent figure (server.py line 914). -/
def totalSpent (txs : List Transaction) : ℚ :=
  (txs.map (fun t => if isExpenseTypeStr t.transaction_type = true then t.amount else 0)).sum

/- ---------- concrete demo data used by witnesses and counterexamples ---------- -/

/-- A raw expense row with an explicit category. -/
def demoFoodTx : RawTx :=
  { amount := 10, transaction_type := some "debit", ai_category := none,
    category := some "food", merchant := some "Chipotle" }

/-- A raw expense row carrying only a merchant. -/
def demoCoffeeTx : RawTx :=
  { amount := 6, transaction_type := some "payment", ai_category := none,
    category := none, merchant := some "Starbucks" }

/-- A raw income row. -/
def demoCreditTx : RawTx :=
  { amount := 100, transaction_type := some "credit", ai_category := none,
    category := some "salary", merchant := none }

/- ---------- helper lemmas ---------- -/

/-- Appending to a non-empty string stays non-empty. -/
theorem strAppendLeftNeEmpty (a b : String) (h : a ≠ "") : a ++ b ≠ "" := by
  intro hab
  apply h
  have hlen := congrArg String.length hab
  rw [String.length_append] at hlen
  have h0 : ("" : String).length = 0 := rfl
  rw [h0] at hlen
  have ha : a.length = 0 := by omega
  cases a with
  | mk dataA =>
    have hd : dataA.length = 0 := ha
    have : dataA = [] := List.length_eq_zero.mp hd
    subst this
    rfl

/-- Inserting into a sorted list grows the length by one. -/
theorem length_insertSorted (x : ℤ) (l : List ℤ) :
    (insertSorted x l).length = l.length + 1 := by
  induction l with
  | nil => rfl
  | cons y restl ih =>
    simp only [insertSorted]
    split
    · simp
    · simp [ih]

/-- Sorting preserves length. -/
theorem length_sortInts (l : List ℤ) : (sortInts l).length = l.length := by
  induction l with
  | nil => rfl
  | cons x xs ih =>
    show (insertSorted x (sortInts xs)).length = xs.length + 1
    rw [length_insertSorted, ih]

/-- Lists with at most one element have no inter-arrival gaps. -/
theorem intervals_eq_nil (l : List ℤ) (h : l.length ≤ 1) : intervals l = [] := by
  cases l with
  | nil => rfl
  | cons a t =>
    cases t with
    | nil => rfl
    | cons b r => simp at h

/-- The mean interval is undefined on at most one timestamp. -/
theorem avgIntervalDays_short (ts : List ℤ) (h : ts.length ≤ 1) :
    avgIntervalDays ts = none := by
  have hnil : intervals (sortInts ts) = [] := intervals_eq_nil _ (by rw [length_sortInts]; exact h)
  simp [avgIntervalDays, hnil]

/-- Appending an amount to a category bucket adds it to the grand bucket sum. -/
theorem sumCat_addToCat (m : List (String × List ℚ)) (c : String) (a : ℚ) :
    sumCat (addToCat m c a) = sumCat m + a := by
  induction m with
  | nil => simp [addToCat, sumCat]
  | cons hd tl ih =>
    obtain ⟨k, v⟩ := hd
    by_cases h : k = c
    · simp [addToCat, h, sumCat]
      ring
    · simp [addToCat, h, sumCat] at ih ⊢
      rw [ih]
      ring

/-- Folding the insights loop from any accumulator adds exactly the expense
total of the processed transactions, given non-negative amounts. -/
theorem sumCat_foldl_insightStep (txs : List RawTx) (m : List (String × List ℚ))
    (h : ∀ t ∈ txs, 0 ≤ t.amount) :
    sumCat (txs.foldl insightStep m) = sumCat m + expenseTotal txs := by
  induction txs generalizing m with
  | nil => simp [expenseTotal]
  | cons t ts ih =>
    have ht : 0 ≤ t.amount := h t (by simp)
    have hts : ∀ x ∈ ts, 0 ≤ x.amount := fun x hx => h x (by simp [hx])
    simp only [List.foldl_cons]
    rw [ih _ hts]
    simp only [expenseTotal, List.map_cons, List.sum_cons]
    unfold insightStep
    by_cases hc : isExpenseTypeStr (txType t) = true ∧ 0 < t.amount
    · rw [if_pos hc, sumCat_addToCat, if_pos hc.1]
      show sumCat m + t.amount + _ = sumCat m + (t.amount + _)
      ring
    · rw [if_neg hc]
      have hz : (if isExpenseTypeStr (txType t) = true then t.amount else 0) = 0 := by
        by_cases he : isExpenseTypeStr (txType t) = true
        · rw [if_pos he]
          have : ¬0 < t.amount := fun hlt => hc ⟨he, hlt⟩
          linarith
        · rw [if_neg he]
      rw [hz]
      show sumCat m + _ = sumCat m + (0 + _)
      ring

/-- Head-tail split of the expense total. -/
theorem expenseTotal_cons (t : RawTx) (ts : List RawTx) :
    expenseTotal (t :: ts) =
      (if isExpenseTypeStr (txType t) = true then t.amount else 0) + expenseTotal ts := by
  simp [expenseTotal]

/-- The expense total is non-negative when every amount is. -/
theorem expenseTotal_nonneg (txs : List RawTx) (h : ∀ t ∈ txs, 0 ≤ t.amount) :
    0 ≤ expenseTotal txs := by
  induction txs with
  | nil => simp [expenseTotal]
  | cons t ts ih =>
    have ht : 0 ≤ t.amount := h t (by simp)
    have hts := ih (fun x hx => h x (by simp [hx]))
    rw [expenseTotal_cons]
    have hhead : 0 ≤ (if isExpenseTypeStr (txType t) = true then t.amount else 0) := by
      split
      · exact ht
      · exact le_refl 0
    linarith

/-- With non-negative amounts and a zero expense total, no transaction fires the
insights bucketing condition. -/
theorem no_bucket_of_zero_total (txs : List RawTx) (hnn : ∀ t ∈ txs, 0 ≤ t.amount)
    (h0 : expenseTotal txs = 0) :
    ∀ t ∈ txs, ¬(isExpenseTypeStr (txType t) = true ∧ 0 < t.amount) := by
  induction txs with
  | nil => intro t ht; simp at ht
  | cons t ts ih =>
    have ht : 0 ≤ t.amount := hnn t (by simp)
    have hts : ∀ x ∈ ts, 0 ≤ x.amount := fun x hx => hnn x (by simp [hx])
    have hrest : 0 ≤ expenseTotal ts := expenseTotal_nonneg ts hts
    have hhead : 0 ≤ (if isExpenseTypeStr (txType t) = true then t.amount else 0) := by
      split
      · exact ht
      · exact le_refl 0
    rw [expenseTotal_cons] at h0
    have h0rest : expenseTotal ts = 0 := by linarith
    have h0head : (if isExpenseTypeStr (txType t) = true then t.amount else 0) = 0 := by linarith
    intro x hx
    rcases List.mem_cons.mp hx with hxt | hxts
    · subst hxt
      intro hcond
      rw [if_pos hcond.1] at h0head
      have := hcond.2
      linarith
    · exact ih hts h0rest x hxts

/-- Folding the insights loop over transactions that never fire the bucketing
condition leaves the accumulator unchanged. -/
theorem foldl_insightStep_id (txs : List RawTx) (m : List (String × List ℚ))
    (h : ∀ t ∈ txs, ¬(isExpenseTypeStr (txType t) = true ∧ 0 < t.amount)) :
    txs.foldl insightStep m = m := by
  induction txs generalizing m with
  | nil => rfl
  | cons t ts ih =>
    have ht := h t (by simp)
    have hts : ∀ x ∈ ts, ¬(isExpenseTypeStr (txType x) = true ∧ 0 < x.amount) :=
      fun x hx => h x (by simp [hx])
    simp only [List.foldl_cons]
    rw [show insightStep m t = m from if_neg ht]
    exact ih m hts

/-- Adding an amount to a dashboard category adds it to the grand total. -/
theorem sumCatQ_addAmt (m : List (String × ℚ)) (c : String) (a : ℚ) :
    sumCatQ (addAmt m c a) = sumCatQ m + a := by
  induction m with
  | nil => simp [addAmt, sumCatQ]
  | cons hd tl ih =>
    obtain ⟨k, v⟩ := hd
    by_cases h : k = c
    · simp [addAmt, h, sumCatQ]
      ring
    · simp [addAmt, h, sumCatQ] at ih ⊢
      rw [ih]
      ring

/-- Head-tail split of the dashboard spent total. -/
theorem totalSpent_cons (t : Transaction) (ts : List Transaction) :
    totalSpent (t :: ts) =
      (if isExpenseTypeStr t.transaction_type = true then t.amount else 0) + totalSpent ts := by
  simp [totalSpent]

/-- Folding the dashboard category loop adds exactly the spent total. -/
theorem sumCatQ_foldl_dashStep (txs : List Transaction) (m : List (String × ℚ)) :
    sumCatQ (txs.foldl dashStep m) = sumCatQ m + totalSpent txs := by
  induction txs generalizing m with
  | nil => simp [totalSpent]
  | cons t ts ih =>
    simp only [List.foldl_cons]
    rw [ih, totalSpent_cons]
    unfold dashStep
    by_cases hc : isExpenseTypeStr t.transaction_type = true
    · rw [if_pos hc, if_pos hc, sumCatQ_addAmt]
      ring
    · rw [if_neg hc, if_neg hc]
      ring

/- ---------- claims ---------- -/

/-- Claim C1: for every goal and monthly savings value the forecaster computes
remaining as max of target minus current and zero, returns the null sentinel
for months needed exactly when monthly savings is non-positive and the quotient
remaining over monthly savings otherwise, assigns status no_savings, on_track
(at most 6 months), moderate_track (at most 12), off_track in that order, and
on target 1200, current 0, savings 200 yields remaining 1200, months 6,
status on_track. -/
theorem claim_C1_goal_forecaster :
    (∀ ms t c : ℚ,
      (forecastGoalProgress ms t c).remaining = max (t - c) 0 ∧
      (forecastGoalProgress ms t c).monthsNeeded =
        (if ms ≤ 0 then none else some (max (t - c) 0 / ms)) ∧
      (forecastGoalProgress ms t c).status =
        (if ms ≤ 0 then "no_savings"
         else if max (t - c) 0 / ms ≤ 6 then "on_track"
         else if max (t - c) 0 / ms ≤ 12 then "moderate_track"
         else "off_track")) ∧
    forecastGoalProgress 200 1200 0 =
      { remaining := 1200, monthsNeeded := some 6, status := "on_track" } := by
  constructor
  · intro ms t c
    unfold forecastGoalProgress
    by_cases h : ms ≤ 0 <;> simp [h]
  · norm_num [forecastGoalProgress]

/-- Claim C3: the trend classifier returns stable on fewer than three
observations, and otherwise compares the mean of the last three observations
against the overall mean scaled by 1.2 (increasing) and 0.8 (decreasing). -/
theorem claim_C3_trend_classifier :
    ∀ amounts : List ℚ,
      trendOf amounts =
        if amounts.length < 3 then "stable"
        else
          if ((amounts.drop (amounts.length - 3)).sum) / 3 >
              (amounts.sum / (amounts.length : ℚ)) * (12 / 10) then "increasing"
          else if ((amounts.drop (amounts.length - 3)).sum) / 3 <
              (amounts.sum / (amounts.length : ℚ)) * (8 / 10) then "decreasing"
          else "stable" := by
  intro amounts
  unfold trendOf
  by_cases h : 3 ≤ amounts.length
  · simp [h, Nat.not_lt.mpr h]
  · have hlt : amounts.length < 3 := Nat.not_le.mp h
    simp [h, hlt]

/-- Claim C4: the category aggregation is partition-complete. With non-negative
amounts, the sum of the per-category insight totals equals the total amount of
the expense-bearing transactions, and the dashboard per-category totals always
sum to the dashboard spent total; income-bearing transactions enter neither
side. -/
theorem claim_C4_partition_completeness (txs : List RawTx)
    (h : ∀ t ∈ txs, 0 ≤ t.amount) :
    sumCat (categorySpending txs) = expenseTotal txs ∧
    ∀ ds : List Transaction, sumCatQ (dashCategorySpending ds) = totalSpent ds := by
  constructor
  · have := sumCat_foldl_insightStep txs [] h
    simpa [categorySpending, sumCat] using this
  · intro ds
    have := sumCatQ_foldl_dashStep ds []
    simpa [dashCategorySpending, sumCatQ] using this

/-- Witness for claim C4 at a concrete three-transaction list containing two
expenses and one income row. -/
theorem claim_C4_witness :
    sumCat (categorySpending [demoFoodTx, demoCoffeeTx, demoCreditTx]) =
      expenseTotal [demoFoodTx, demoCoffeeTx, demoCreditTx] ∧
    ∀ ds : List Transaction, sumCatQ (dashCategorySpending ds) = totalSpent ds :=
  claim_C4_partition_completeness [demoFoodTx, demoCoffeeTx, demoCreditTx] (by
    intro t ht
    rcases List.mem_cons.mp ht with h1 | ht
    · subst h1; norm_num [demoFoodTx]
    rcases List.mem_cons.mp ht with h2 | ht
    · subst h2; norm_num [demoCoffeeTx]
    rcases List.mem_cons.mp ht with h3 | ht
    · subst h3; norm_num [demoCreditTx]
    · simp at ht)

/-- Claim C2: the subscription detector flags a merchant group exactly when the
amounts are stable within ten percent of the mean and the mean interval lies in
the 20 to 40 day window; three charges of 50 at 30-day intervals are flagged
with estimated monthly total 50, amounts 10 and 90 at 30-day spacing are not
flagged, and a single occurrence is never flagged. -/
theorem claim_C2_subscription_detector :
    (∀ g : List (ℚ × ℤ),
      isSubscription g = (amountStableB (groupAmounts g) && cadenceOk (groupTimes g))) ∧
    isSubscription [(50, 0), (50, 30), (50, 60)] = true ∧
    estimatedMonthlyTotal [(50, 0), (50, 30), (50, 60)] = 50 ∧
    isSubscription [(10, 0), (90, 30)] = false ∧
    (∀ (a : ℚ) (t : ℤ), isSubscription [(a, t)] = false) := by
  refine ⟨?_, ?_, ?_, ?_, ?_⟩
  · intro g
    by_cases h : 2 ≤ g.length
    · simp [isSubscription, h]
    · have hle : (groupTimes g).length ≤ 1 := by
        simp only [groupTimes, List.length_map]
        omega
      have hc : cadenceOk (groupTimes g) = false := by
        simp [cadenceOk, avgIntervalDays_short _ hle]
      simp [isSubscription, h, hc]
  · have h1 : intervals (sortInts (groupTimes [(50, 0), (50, 30), (50, 60)])) = [30, 30] := by
      decide
    have h2 : avgIntervalDays (groupTimes [(50, 0), (50, 30), (50, 60)]) = some 30 := by
      simp only [avgIntervalDays, h1]
      norm_num
      decide
    rw [isSubscription, cadenceOk, h2]
    norm_num [amountStableB, groupAmounts, meanQ, maxAmt, minAmt]
  · norm_num [estimatedMonthlyTotal, meanQ, groupAmounts]
  · have hst : amountStableB (groupAmounts [(10, 0), (90, 30)]) = false := by
      norm_num [amountStableB, groupAmounts, meanQ, maxAmt, minAmt]
    simp [isSubscription, hst]
  · intro a t
    simp [isSubscription]

/-- Counterexample to claim C5: a single stored income transaction has a zero
expense grand total, yet the endpoint emits one generic placeholder of category
general rather than one placeholder per canonical starter category. -/
theorem claim_C5_counterexample :
    expenseTotal [demoCreditTx] = 0 ∧
    (getSpendingInsights "u" [demoCreditTx]).insights.map SpendingInsight.category =
      [ "general" ] ∧
    ¬((getSpendingInsights "u" [demoCreditTx]).insights.map SpendingInsight.category =
      [ "food", "entertainment" ]) := by
  have e3 : isExpenseTypeStr (txType demoCreditTx) = false := by decide
  have h0 : expenseTotal [demoCreditTx] = 0 := by
    rw [expenseTotal_cons]
    rw [if_neg (by rw [e3]; exact Bool.false_ne_true)]
    simp [expenseTotal]
  have h2 : categorySpending [demoCreditTx] = [] := by
    simp [categorySpending, insightStep, e3]
  have hmap : (getSpendingInsights "u" [demoCreditTx]).insights.map SpendingInsight.category =
      [ "general" ] := by
    simp [getSpendingInsights, generateInsightsFromRawData, h2, generalPlaceholder]
  refine ⟨h0, hmap, ?_⟩
  rw [hmap]
  simp

/-- Claim C5 as amended: with non-negative amounts and a zero expense grand
total, no insight is computed by division (the aggregation is empty), the
endpoint still returns a non-empty insight list whose entries all carry zero
total and zero average with non-empty text; with no stored rows at all the
placeholders are the starter categories food and entertainment, while with
stored rows but no expense the single placeholder has category general. -/
theorem claim_C5_zero_total_placeholders (uid : String) (txs : List RawTx)
    (hnn : ∀ t ∈ txs, 0 ≤ t.amount) (h0 : expenseTotal txs = 0) :
    (getSpendingInsights uid txs).insights ≠ [] ∧
    (∀ i ∈ (getSpendingInsights uid txs).insights,
      i.total_amount = 0 ∧ i.avg_transaction = 0 ∧ i.ai_recommendation ≠ "") ∧
    (txs = [] →
      (getSpendingInsights uid txs).insights.map SpendingInsight.category =
        [ "food", "entertainment" ]) ∧
    (txs ≠ [] →
      (getSpendingInsights uid txs).insights.map SpendingInsight.category = [ "general" ]) := by
  have hnil : categorySpending txs = [] :=
    foldl_insightStep_id txs [] (no_bucket_of_zero_total txs hnn h0)
  by_cases he : txs = []
  · subst he
    refine ⟨by simp [getSpendingInsights], ?_, by intro h; simp [getSpendingInsights, foodPlaceholder, entertainmentPlaceholder], by intro h; exact absurd rfl h⟩
    intro i hi
    simp [getSpendingInsights] at hi
    rcases hi with hfood | hent
    · subst hfood
      refine ⟨rfl, rfl, ?_⟩
      simp [foodPlaceholder]
    · subst hent
      refine ⟨rfl, rfl, ?_⟩
      simp [entertainmentPlaceholder]
  · have hg : generateInsightsFromRawData uid txs = [] := by
      simp [generateInsightsFromRawData, hnil]
    have hresp : (getSpendingInsights uid txs).insights = [generalPlaceholder uid txs.length] := by
      simp [getSpendingInsights, he, hg]
    refine ⟨by rw [hresp]; simp, ?_, by intro h; exact absurd h he, by intro h; rw [hresp]; simp [generalPlaceholder]⟩
    intro i hi
    rw [hresp] at hi
    simp at hi
    subst hi
    refine ⟨rfl, rfl, ?_⟩
    simp [generalPlaceholder]

/-- Witness for the amended claim C5 at the single-income-row input. -/
theorem claim_C5_witness :
    (getSpendingInsights "u" [demoCreditTx]).insights ≠ [] ∧
    (∀ i ∈ (getSpendingInsights "u" [demoCreditTx]).insights,
      i.total_amount = 0 ∧ i.avg_transaction = 0 ∧ i.ai_recommendation ≠ "") ∧
    ([demoCreditTx] = ([] : List RawTx) →
      (getSpendingInsights "u" [demoCreditTx]).insights.map SpendingInsight.category =
        [ "food", "entertainment" ]) ∧
    (([demoCreditTx] : List RawTx) ≠ [] →
      (getSpendingInsights "u" [demoCreditTx]).insights.map SpendingInsight.category =
        [ "general" ]) :=
  claim_C5_zero_total_placeholders "u" [demoCreditTx]
    (by
      intro t ht
      rcases List.mem_cons.mp ht with h1 | ht
      · subst h1; norm_num [demoCreditTx]
      · simp at ht)
    (by
      rw [expenseTotal_cons]
      rw [if_neg (by rw [show isExpenseTypeStr (txType demoCreditTx) = false by decide]; exact Bool.false_ne_true)]
      simp [expenseTotal])

/-- The final fix-up applied to a parsed date entry agrees with the
specification-side parse of the chosen value. -/
theorem parseKey_final (now : PyDateTime) (v : PVal) :
    (if fieldTruthy (parseKey now (some v)) then parseKey now (some v)
     else some (.vDT now)) = some (.vDT (parseChosen now (some v))) := by
  cases v with
  | vStr s =>
    by_cases hs : s = ""
    · subst hs
      simp [parseKey, truthy, fieldTruthy, parseChosen]
    · cases hp : parseISO (zReplace s) with
      | none => simp [parseKey, truthy, fieldTruthy, parseChosen, hs, hp]
      | some t => simp [parseKey, truthy, fieldTruthy, parseChosen, hs, hp]
  | vDT t => simp [parseKey, truthy, fieldTruthy, parseChosen]
  | vDate y m d => simp [parseKey, truthy, fieldTruthy, parseChosen]
  | vNone => simp [parseKey, truthy, fieldTruthy, parseChosen]
  | vNum q =>
    by_cases hq : q = 0
    · subst hq
      simp [parseKey, truthy, fieldTruthy, parseChosen]
    · simp [parseKey, truthy, fieldTruthy, parseChosen, hq]

/-- Counterexample to claim C6: the date field holds the date-only string
2024-01-02, which the claim says is parsed as a calendar date; the normalizer
instead produces a full midnight date-time value, never a calendar-date value. -/
theorem claim_C6_counterexample :
    (parseFromSupabase ⟨2025, 6, 15, 12, 30, 0, true⟩
        ⟨some (.vStr "2024-01-02"), none, none, []⟩).date =
      some (.vDT ⟨2024, 1, 2, 0, 0, 0, false⟩) ∧
    isCalendarDateVal
      ((parseFromSupabase ⟨2025, 6, 15, 12, 30, 0, true⟩
          ⟨some (.vStr "2024-01-02"), none, none, []⟩).date) = false := by
  constructor
  · decide
  · decide

/-- Claim C6 as amended: the normalizer resolves the canonical timestamp from
the date field if present, else processed_at, else created_at, else the current
time; a chosen truthy string is parsed as a full ISO-8601 date-time whether or
not it contains a time-separator (date-only strings become midnight date-times
rather than calendar dates), any parse failure or non-datetime value yields the
current time, and the record is never discarded (the empty dict aside, the
output date is always a datetime). -/
theorem claim_C6_timestamp_resolution :
    ∀ (now : PyDateTime) (r : RawRecord),
      (parseFromSupabase now r).date =
        if r = emptyRecord then none else some (.vDT (finalDate now r)) := by
  intro now r
  by_cases hemp : r = emptyRecord
  · subst hemp
    simp [parseFromSupabase, emptyRecord]
  · rw [if_neg hemp]
    obtain ⟨d, pa, ca, rest⟩ := r
    unfold parseFromSupabase
    rw [if_neg hemp]
    cases d with
    | some v =>
      simp only [mapDateField, finalDate, chooseRaw]
      simp [apply_ite RawRecord.date, parseKey_final now v]
    | none =>
      cases pa with
      | some v =>
        simp only [mapDateField, finalDate, chooseRaw]
        simp [apply_ite RawRecord.date, parseKey_final now v]
      | none =>
        cases ca with
        | some v =>
          simp only [mapDateField, finalDate, chooseRaw]
          simp [apply_ite RawRecord.date, parseKey_final now v]
        | none =>
          simp only [mapDateField, finalDate, chooseRaw]
          simp [apply_ite RawRecord.date, parseKey, fieldTruthy, parseChosen]

/-- Claim C9: normalization is idempotent on canonical records, whose date key
holds a datetime and whose processed_at and created_at entries are absent or
already-parsed datetimes; the remaining keys are untouched. -/
theorem claim_C9_normalizer_idempotent :
    ∀ (now t : PyDateTime) (pa ca : Option PyDateTime) (rest : List (String × PVal)),
      parseFromSupabase now ⟨some (.vDT t), pa.map .vDT, ca.map .vDT, rest⟩ =
        ⟨some (.vDT t), pa.map .vDT, ca.map .vDT, rest⟩ := by
  intro now t pa ca rest
  have hne : (⟨some (.vDT t), pa.map .vDT, ca.map .vDT, rest⟩ : RawRecord) ≠ emptyRecord := by
    intro h
    rw [emptyRecord] at h
    exact Option.noConfusion (congrArg RawRecord.date h)
  unfold parseFromSupabase
  rw [if_neg hne]
  cases pa with
  | none =>
    cases ca with
    | none => simp [mapDateField, parseKey, truthy, fieldTruthy]
    | some x => simp [mapDateField, parseKey, truthy, fieldTruthy]
  | some x =>
    cases ca with
    | none => simp [mapDateField, parseKey, truthy, fieldTruthy]
    | some y => simp [mapDateField, parseKey, truthy, fieldTruthy]

/-- Claim C7: the create-goal endpoint rejects a body missing title or
target_amount without writing any row, but the HTTPException(400) it raises is
swallowed by its own catch-all handler and resurfaces as a 500 whose detail
embeds the 400 message, so the client sees a server error instead of the
intended 4xx. -/
theorem claim_C7_missing_field_behavior :
    (∀ (userId uuid nowIso : String) (tgt ca : Option ℚ) (gt td : Option String) (ok : Bool),
      createGoal userId ⟨none, tgt, gt, ca, td⟩ uuid nowIso ok =
        (.err 500 ("Error creating goal: " ++ httpExcStr 400 "Missing required field: title"),
         [])) ∧
    (∀ (userId uuid nowIso ttl : String) (ca : Option ℚ) (gt td : Option String) (ok : Bool),
      createGoal userId ⟨some ttl, none, gt, ca, td⟩ uuid nowIso ok =
        (.err 500 ("Error creating goal: " ++ httpExcStr 400 "Missing required field: target_amount"),
         [])) := by
  constructor
  · intro userId uuid nowIso tgt ca gt td ok
    simp [createGoal]
  · intro userId uuid nowIso ttl ca gt td ok
    simp [createGoal]

/-- The inline forecast fallback guidance is never empty. -/
theorem forecastFallbackGuidance_ne_empty (status : String) (ms t rem : ℚ) :
    forecastFallbackGuidance status ms t rem ≠ "" := by
  unfold forecastFallbackGuidance
  split_ifs
  all_goals repeat apply strAppendLeftNeEmpty
  all_goals decide

/-- The HuggingFace fallback guidance is never empty. -/
theorem fallbackGuidance_ne_empty (ms t c : ℚ) (status : String) :
    fallbackGuidance ms t c status ≠ "" := by
  unfold fallbackGuidance
  split_ifs
  all_goals repeat apply strAppendLeftNeEmpty
  all_goals decide

/-- The HuggingFace fallback spending insight is never empty. -/
theorem fallbackSpendingInsight_ne_empty (category : String) (total : ℚ) (n : ℕ) (trend : String) :
    fallbackSpendingInsight category total n trend ≠ "" := by
  unfold fallbackSpendingInsight
  dsimp only []
  split_ifs
  all_goals repeat apply strAppendLeftNeEmpty
  all_goals decide

/-- Claim C8: when the generative-text collaborator throws on every call, the
forecast keeps exactly the numeric fields it computes for any collaborator
outcome and carries non-empty fallback guidance, the transaction analysis
returns the deterministic fallback record with non-empty insight text (for a
throw and for an unusable reply alike), and both HuggingFace fallback texts are
non-empty for every input; no collaborator error is ever propagated. -/
theorem claim_C8_fallback_guarantee :
    ∀ (ms t c total : ℚ) (desc status category trend : String) (n : ℕ) (gen : LLMText),
      ((forecastGoalProgressFull .threw ms t c).remaining =
          (forecastGoalProgress ms t c).remaining ∧
       (forecastGoalProgressFull .threw ms t c).monthsNeeded =
          (forecastGoalProgress ms t c).monthsNeeded ∧
       (forecastGoalProgressFull .threw ms t c).status =
          (forecastGoalProgress ms t c).status ∧
       (forecastGoalProgressFull gen ms t c).remaining =
          (forecastGoalProgressFull .threw ms t c).remaining ∧
       (forecastGoalProgressFull gen ms t c).monthsNeeded =
          (forecastGoalProgressFull .threw ms t c).monthsNeeded ∧
       (forecastGoalProgressFull gen ms t c).status =
          (forecastGoalProgressFull .threw ms t c).status) ∧
      (forecastGoalProgressFull .threw ms t c).ai_guidance ≠ "" ∧
      analyzeTransaction .threw desc =
        { category := guessCategory desc, insight := "Transaction recorded successfully",
          tip := "" } ∧
      analyzeTransaction (.returned none) desc =
        { category := guessCategory desc, insight := "Transaction recorded successfully",
          tip := "" } ∧
      (analyzeTransaction .threw desc).insight ≠ "" ∧
      fallbackGuidance ms t c status ≠ "" ∧
      fallbackSpendingInsight category total n trend ≠ "" := by
  intro ms t c total desc status category trend n gen
  refine ⟨⟨rfl, rfl, rfl, ?_, ?_, ?_⟩, ?_, rfl, rfl, ?_, ?_, ?_⟩
  · cases gen <;> rfl
  · cases gen <;> rfl
  · cases gen <;> rfl
  · show forecastFallbackGuidance (forecastGoalProgress ms t c).status ms t
      (forecastGoalProgress ms t c).remaining ≠ ""
    exact forecastFallbackGuidance_ne_empty _ _ _ _
  · show "Transaction recorded successfully" ≠ ""
    decide
  · exact fallbackGuidance_ne_empty ms t c status
  · exact fallbackSpendingInsight_ne_empty category total n trend

/-- Claim C10: both persistence paths store every transaction with the literal
transaction_type payment, which is not income-bearing, regardless of the
requested type; the returned Transaction object still carries the
caller-supplied type. -/
theorem claim_C10_stored_type_payment :
    ∀ (userId : String) (d : TxRequest) (llm : GenResult) (idv : String) (now : PyDateTime)
      (sample : List Transaction) (llm2 : GenResult),
      (addTransactionResult userId d llm idv now).2.transaction_type = "payment" ∧
      isIncomeTypeStr (addTransactionResult userId d llm idv now).2.transaction_type = false ∧
      (addTransactionResult userId d llm idv now).1.transaction_type =
        d.transaction_type.getD "debit" ∧
      (createUserStoredRows sample llm2).all
        (fun row => row.transaction_type == "payment") = true := by
  intro userId d llm idv now sample llm2
  refine ⟨rfl, ?_, rfl, ?_⟩
  · show isIncomeTypeStr "payment" = false
    decide
  · simp [createUserStoredRows, toStoredRow, List.all_eq_true]
